import Mathlib

/-!
Shallow embedding of the Quiz Pro client-side storage layer
(`src/js/storage.js`), its text import parser (`src/js/creator.js`), and
the caching strategies of the offline service worker (`src/sw.js`).

Modelling conventions:
* machine state is passed explicitly (a `Store` record mirrors the decoded
  view of the `localStorage` keys used by `QuizStorage`);
* `generateId()` (timestamp + random in the source) is modelled by a
  counter `gen` threaded through the state, producing fresh names `g0, g1, …`;
* `new Date().toISOString()` timestamps are modelled as a `now : Nat`
  argument supplied at each call, compared numerically (the source compares
  `Date` values, which is the same order);
* record ids are `Option String`, `none` standing for a JS `undefined` id. -/

namespace QuizPro

/-- `generateId()` modelled as a counter-indexed fresh name. -/
def genId (g : Nat) : String := "g" ++ toString g

/-- A question or collection record.  Only the fields the storage layer
itself reads or writes are kept; `payload` stands for the remaining
content fields (text, options, …), which the layer copies around opaquely. -/
structure Rec where
  id : Option String := none
  payload : Nat := 0
  createdAt : Option Nat := none
  updatedAt : Option Nat := none
  importedAt : Option Nat := none
deriving DecidableEq, Repr

/-- The `result.summary` sub-record read by `getQuizStatistics`. -/
structure Summary where
  totalQuestions : Nat := 0
  percentage : Nat := 0
  totalTime : Nat := 0
deriving DecidableEq, Repr

/-- A stored quiz-history entry (`saveQuizResult` adds `id` and `timestamp`). -/
structure HistEntry where
  id : String := ""
  timestamp : Nat := 0
  summary : Summary := {}
deriving DecidableEq, Repr

/-- An entry of the `quiz-imports` audit log (`logImport`); the
`sourceVersion`/`sourceDate` fields are opaque copies and are omitted. -/
structure ImportLogEntry where
  id : String
  timestamp : Nat
  questionsImported : Nat
deriving DecidableEq, Repr

/-- Decoded view of the `localStorage` keys used by `QuizStorage`, plus the
fresh-id counter.  `settings` is an opaque blob. -/
structure Store where
  questions : List Rec := []
  history : List HistEntry := []
  collections : List Rec := []
  settings : Option Nat := none
  imports : List ImportLogEntry := []
  gen : Nat := 0
deriving DecidableEq, Repr

/-! ## Quiz history (storage.js 102-173) -/

/-- `getQuizHistory(limit = 50)` (storage.js:123-126):
`return limit ? history.slice(0, limit) : history;` — a zero limit is falsy
in JS and yields the full list, any other limit truncates. -/
def getQuizHistory (s : Store) (limit : Nat := 50) : List HistEntry :=
  if limit = 0 then s.history else s.history.take limit

/-- `saveQuizResult(result)` (storage.js:102-121).  Note that the source
reads the current history through `this.getQuizHistory()`, hence through the
default `limit = 50`.  Returns the updated store and the new entry's id. -/
def saveQuizResult (s : Store) (r : Summary) (now : Nat) : Store × String :=
  let history := getQuizHistory s
  let e : HistEntry := { id := genId s.gen, timestamp := now, summary := r }
  let history' := e :: history
  let history'' := if history'.length > 100 then history'.take 100 else history'
  ({ s with history := history'', gen := s.gen + 1 }, e.id)

/-- The aggregate record returned by `getQuizStatistics`. -/
structure Stats where
  totalQuizzes : Nat
  totalQuestions : Nat
  averageScore : Nat
  bestScore : Nat
  totalTime : Nat
  averageTime : Nat
deriving DecidableEq, Repr

/-- JS `Math.round(a / b)` for nonnegative operands (round half up). -/
def jsRound (a b : Nat) : Nat := (2 * a + b) / (2 * b)

/-- Accumulator of the `history.reduce` in `getQuizStatistics`. -/
structure StatAcc where
  totalQuizzes : Nat
  totalQuestions : Nat
  totalScore : Nat
  bestScore : Nat
  totalTime : Nat
deriving DecidableEq, Repr

/-- One step of the `reduce` of `getQuizStatistics` (storage.js:142-159). -/
def statStep (acc : StatAcc) (r : HistEntry) : StatAcc :=
  { totalQuizzes := acc.totalQuizzes + 1
    totalQuestions := acc.totalQuestions + r.summary.totalQuestions
    totalScore := acc.totalScore + r.summary.percentage
    totalTime := acc.totalTime + r.summary.totalTime
    bestScore := if acc.bestScore < r.summary.percentage then r.summary.percentage
                 else acc.bestScore }

/-- The aggregation body of `getQuizStatistics` (storage.js:128-169), as a
function of the history list it is given. -/
def statsOf (history : List HistEntry) : Stats :=
  if history.isEmpty then
    { totalQuizzes := 0, totalQuestions := 0, averageScore := 0,
      bestScore := 0, totalTime := 0, averageTime := 0 }
  else
    let a := history.foldl statStep ⟨0, 0, 0, 0, 0⟩
    { totalQuizzes := a.totalQuizzes
      totalQuestions := a.totalQuestions
      averageScore := jsRound a.totalScore a.totalQuizzes
      bestScore := a.bestScore
      totalTime := a.totalTime
      averageTime := if 0 < a.totalQuizzes then jsRound a.totalTime a.totalQuizzes else 0 }

/-- `getQuizStatistics()` (storage.js:128-169): the source aggregates over
`this.getQuizHistory()`, i.e. over the first 50 stored entries only. -/
def getQuizStatistics (s : Store) : Stats := statsOf (getQuizHistory s)

/-- Modelled from the spec (§4.3): the aggregate "computed over the full
stored history (not just the returned `limit`)" — same aggregation body,
applied to the whole stored list.  Used for comparison with
`getQuizStatistics`. -/
def aggregateOverFullHistory (s : Store) : Stats := statsOf s.history

/-- `n` successive `saveQuizResult` appends (with distinct timestamps)
starting from store `s`. -/
def appendN (s : Store) : Nat → Store
  | 0 => s
  | n + 1 => (saveQuizResult (appendN s n) {} n).1

/-! ## Question and collection CRUD (storage.js 29-65, 177-211) -/

/-- `saveQuestion(question)` (storage.js:29-49).  Returns the updated store
and the returned id.  (JS truthiness of the id is modelled by the `Option`;
the claims never exercise an empty-string id.) -/
def saveQuestion (s : Store) (q : Rec) (now : Nat) : Store × String :=
  match q.id with
  | some i =>
    match s.questions.findIdx? (fun r => r.id == some i) with
    | some idx =>
      ({ s with questions := s.questions.set idx { q with updatedAt := some now } }, i)
    | none =>
      ({ s with questions := s.questions ++ [{ q with createdAt := some now }] }, i)
  | none =>
    let i := genId s.gen
    ({ s with
        questions := s.questions ++ [{ q with id := some i, createdAt := some now }]
        gen := s.gen + 1 }, i)

/-- `saveCollection(collection)` (storage.js:177-195).  Unlike
`saveQuestion`, the branch where `collection.id` is set but matches no
stored entry has no `else`: the list is written back unchanged. -/
def saveCollection (s : Store) (c : Rec) (now : Nat) : Store × String :=
  match c.id with
  | some i =>
    match s.collections.findIdx? (fun r => r.id == some i) with
    | some idx =>
      ({ s with collections := s.collections.set idx { c with updatedAt := some now } }, i)
    | none => (s, i)
  | none =>
    let i := genId s.gen
    ({ s with
        collections := s.collections ++ [{ c with id := some i, createdAt := some now }]
        gen := s.gen + 1 }, i)

/-- `getQuestionById(id)` (storage.js:55-58). -/
def getQuestionById (s : Store) (i : String) : Option Rec :=
  s.questions.find? (fun r => r.id == some i)

/-- `getCollectionById(id)` (storage.js:201-204). -/
def getCollectionById (s : Store) (i : String) : Option Rec :=
  s.collections.find? (fun r => r.id == some i)

/-! ## Import / export (storage.js 231-337) and backup (storage.js 477-508) -/

/-- The `options` argument of `importData` with its source defaults. -/
structure ImportOpts where
  mergeQuestions : Bool := true
  mergeCollections : Bool := true
  mergeHistory : Bool := false
  overwriteSettings : Bool := false
deriving DecidableEq, Repr

/-- An import/export bundle (`data` argument of `importData`): `none` models
a missing field, `some` a present JSON array/object (`data.questions &&
Array.isArray(data.questions)` — an empty array is present and truthy). -/
structure BundleData where
  questions : Option (List Rec) := none
  collections : Option (List Rec) := none
  history : Option (List HistEntry) := none
  settings : Option Nat := none
deriving DecidableEq, Repr

/-- The value returned by `importData`. -/
structure ImportResult where
  success : Bool
  importedQuestions : Nat
deriving DecidableEq, Repr

/-- The merge pass of `importData` (storage.js:244-256 for questions,
269-281 for collections, which duplicate the same logic): records whose id
is already present are skipped; the others get a generated id when they lack
one, an `importedAt` stamp, and are collected for appending.  The source
mutates the bundle's records in place, so the pass returns the mutated
bundle list, the appended new records, and the advanced id counter. -/
def mergeIn (existingIds : List (Option String)) (g now : Nat) :
    List Rec → List Rec × List Rec × Nat
  | [] => ([], [], g)
  | q :: rest =>
    if q.id ∈ existingIds then
      let r := mergeIn existingIds g now rest
      (q :: r.1, r.2.1, r.2.2)
    else
      match q.id with
      | none =>
        let q' := { q with id := some (genId g), importedAt := some now }
        let r := mergeIn existingIds (g + 1) now rest
        (q' :: r.1, q' :: r.2.1, r.2.2)
      | some _ =>
        let q' := { q with importedAt := some now }
        let r := mergeIn existingIds g now rest
        (q' :: r.1, q' :: r.2.1, r.2.2)

/-- The replace branch of the questions section (storage.js:258-264): every
bundle record gets a generated id when it lacks one and an `importedAt`
stamp.  Returns the mutated list and the advanced id counter. -/
def stampAll (g now : Nat) : List Rec → List Rec × Nat
  | [] => ([], g)
  | q :: rest =>
    match q.id with
    | none =>
      let q' := { q with id := some (genId g), importedAt := some now }
      let r := stampAll (g + 1) now rest
      (q' :: r.1, r.2)
    | some _ =>
      let q' := { q with importedAt := some now }
      let r := stampAll g now rest
      (q' :: r.1, r.2)

/-- `allHistory.filter((item, i, arr) => i === arr.findIndex(t => t.id === item.id))`
(storage.js:289-291): keeps the first entry carrying each id. -/
def dedupByIdAux (seen : List String) : List HistEntry → List HistEntry
  | [] => []
  | e :: r => if e.id ∈ seen then dedupByIdAux seen r
              else e :: dedupByIdAux (e.id :: seen) r

/-- De-duplication of the merged history by id, first occurrence kept. -/
def dedupById (l : List HistEntry) : List HistEntry := dedupByIdAux [] l

/-- Stable insertion placing `e` before the first entry with a strictly
older timestamp (ties keep their original relative order). -/
def insertByTsDesc (e : HistEntry) : List HistEntry → List HistEntry
  | [] => [e]
  | x :: xs => if x.timestamp ≤ e.timestamp then e :: x :: xs
               else x :: insertByTsDesc e xs

/-- `.sort((a, b) => new Date(b.timestamp) - new Date(a.timestamp))`
(storage.js:291): the stable JS sort by timestamp descending, modelled as a
stable insertion sort. -/
def sortByTimestampDesc (l : List HistEntry) : List HistEntry :=
  l.foldr insertByTsDesc []

/-- The questions section of `importData` (storage.js:243-266).  Returns the
updated store, the bundle as mutated in place, and `importedCount`. -/
def importQuestionsSection (s : Store) (d : BundleData) (o : ImportOpts) (now : Nat) :
    Store × BundleData × Nat :=
  match d.questions with
  | none => (s, d, 0)
  | some qs =>
    if o.mergeQuestions then
      let r := mergeIn (s.questions.map (fun q => q.id)) s.gen now qs
      ({ s with questions := s.questions ++ r.2.1, gen := r.2.2 },
       { d with questions := some r.1 }, r.2.1.length)
    else
      let r := stampAll s.gen now qs
      ({ s with questions := r.1, gen := r.2 },
       { d with questions := some r.1 }, r.1.length)

/-- The collections section of `importData` (storage.js:269-281).  Note the
guard `data.collections && Array.isArray(…) && mergeCollections`: with
`mergeCollections = false` this section does nothing at all. -/
def importCollectionsSection (s : Store) (d : BundleData) (o : ImportOpts) (now : Nat) :
    Store × BundleData :=
  match d.collections with
  | none => (s, d)
  | some cs =>
    if o.mergeCollections then
      let r := mergeIn (s.collections.map (fun c => c.id)) s.gen now cs
      ({ s with collections := s.collections ++ r.2.1, gen := r.2.2 },
       { d with collections := some r.1 })
    else (s, d)

/-- The history section of `importData` (storage.js:284-294).  The existing
history is read through `this.getQuizHistory()`, i.e. through the default
`limit = 50`. -/
def importHistorySection (s : Store) (d : BundleData) (o : ImportOpts) : Store :=
  match d.history with
  | some hs =>
    if o.mergeHistory then
      { s with history := (sortByTimestampDesc (dedupById (getQuizHistory s ++ hs))).take 100 }
    else s
  | none => s

/-- The settings section of `importData` (storage.js:297-299). -/
def importSettingsSection (s : Store) (d : BundleData) (o : ImportOpts) : Store :=
  match d.settings with
  | some st => if o.overwriteSettings then { s with settings := some st } else s
  | none => s

/-- `logImport(data, importedCount)` (storage.js:320-337): prepends an audit
entry and keeps the most recent 20. -/
def logImport (s : Store) (count now : Nat) : Store :=
  let imports :=
    ({ id := genId s.gen, timestamp := now, questionsImported := count } : ImportLogEntry)
      :: s.imports
  { s with
    imports := if imports.length > 20 then imports.take 20 else imports
    gen := s.gen + 1 }

/-- `importData(data, options)` (storage.js:231-318): the four sections in
source order, then the audit log.  Returns the updated store, the bundle as
mutated in place, and the result value.  The surrounding `try/catch` cannot
fire on well-typed data in this model, so `success` is always `true`. -/
def importData (s : Store) (d : BundleData) (o : ImportOpts) (now : Nat) :
    Store × BundleData × ImportResult :=
  let q := importQuestionsSection s d o now
  let c := importCollectionsSection q.1 q.2.1 o now
  let s3 := importHistorySection c.1 c.2 o
  let s4 := importSettingsSection s3 c.2 o
  (logImport s4 q.2.2 now, c.2, { success := true, importedQuestions := q.2.2 })

/-- A backup object as consumed by `restoreBackup`; only the `data` field is
inspected (`version`/`timestamp`/`storageInfo` are opaque).  `none` models a
missing or falsy `data` field. -/
structure Backup where
  data : Option BundleData := none
deriving DecidableEq, Repr

/-- The option record `restoreBackup` passes to `importData`
(storage.js:496-501). -/
def restoreOpts : ImportOpts :=
  { mergeQuestions := false, mergeCollections := false,
    mergeHistory := true, overwriteSettings := true }

/-- `restoreBackup(backupData)` (storage.js:491-508): throws
`'Dados de backup inválidos'` when the argument is null/undefined or has no
`data` field — the throw precedes every write, so the stored state is
untouched on that path — otherwise delegates to `importData` with
`restoreOpts`. -/
def restoreBackup (s : Store) (b : Option Backup) (now : Nat) :
    Except String (Store × BundleData × ImportResult) :=
  match b with
  | none => Except.error "Dados de backup inválidos"
  | some bk =>
    match bk.data with
    | none => Except.error "Dados de backup inválidos"
    | some d => Except.ok (importData s d restoreOpts now)

/-! ## Quota handling (storage.js 351-364, 409-425)

A second, size-aware view of the persistent store, for the quota-exceeded
path of `setItem`: `localStorage.setItem` throws `QuotaExceededError` when
the serialized contents would exceed the quota.  Values are modelled by
their serialized size; the history value additionally keeps its entry
structure (with a per-entry serialized size), since `handleStorageFull`
slices it.  The mutual recursion `setItem ↔ handleStorageFull` of the
source is made total with a fuel parameter: exhausted fuel stands for the
source looping (unreachable in every state considered here). -/

/-- The `localStorage` keys of `QuizStorage.storageKeys`. -/
inductive SKey where
  | questions | history | settings | draft | theme | appState | collections | imports
deriving DecidableEq, Repr

/-- A history entry as seen by the quota model: its timestamp and its
serialized size. -/
structure QHist where
  timestamp : Nat
  sz : Nat
deriving DecidableEq, Repr

/-- A serialized value: the history list keeps its structure, every other
value is measured by its serialized size only. -/
inductive SVal where
  | hist : List QHist → SVal
  | blob : Nat → SVal
deriving DecidableEq, Repr

/-- Serialized size of a value. -/
def valSize : SVal → Nat
  | SVal.hist l => (l.map (fun e => e.sz)).sum
  | SVal.blob n => n

/-- The quota-aware persistent store: contents per key, plus the quota. -/
structure QuotaStore where
  entries : SKey → Option SVal
  capacity : Nat

/-- All storage keys, for the total-size computation. -/
def allKeys : List SKey :=
  [SKey.questions, SKey.history, SKey.settings, SKey.draft,
   SKey.theme, SKey.appState, SKey.collections, SKey.imports]

/-- Total serialized size currently held in the store. -/
def totalSize (st : QuotaStore) : Nat :=
  (allKeys.map (fun k => match st.entries k with
    | some v => valSize v
    | none => 0)).sum

/-- Raw replacement of one key's value (no quota check). -/
def qSet (st : QuotaStore) (k : SKey) (v : SVal) : QuotaStore :=
  { st with entries := fun k' => if k' = k then some v else st.entries k' }

/-- The decoded history list, as `getQuizHistory()` reads it inside
`handleStorageFull` — through the default `limit = 50`. -/
def qGetHistory (st : QuotaStore) : List QHist :=
  (match st.entries SKey.history with
   | some (SVal.hist l) => l
   | _ => []).take 50

mutual

/-- `setItem(key, value)` (storage.js:351-364): attempt the write; on a
quota failure run `handleStorageFull()` and return `false` — the write is
not retried. -/
def setItemF : Nat → QuotaStore → SKey → SVal → QuotaStore × Bool
  | 0, st, _, _ => (st, false)
  | fuel + 1, st, k, v =>
    if totalSize (qSet st k v) ≤ st.capacity then (qSet st k v, true)
    else (handleStorageFullF fuel st, false)

/-- `handleStorageFull()` (storage.js:409-425): truncate the history to the
20 most recent entries (of the 50 that `getQuizHistory()` returns) when it
is longer than 20, then clear the import log.  Both writes go through
`setItem` again, as in the source. -/
def handleStorageFullF : Nat → QuotaStore → QuotaStore
  | 0, st => st
  | fuel + 1, st =>
    (setItemF fuel
      (if 20 < (qGetHistory st).length
       then (setItemF fuel st SKey.history (SVal.hist ((qGetHistory st).take 20))).1
       else st)
      SKey.imports (SVal.blob 0)).1

end

/-- A store whose history holds 25 four-byte entries against a quota of
100: any further write fails, and after the eviction of
`handleStorageFull` 20 bytes are free. -/
def quotaExSt : QuotaStore :=
  { entries := fun k => if k = SKey.history
      then some (SVal.hist (List.replicate 25 { timestamp := 0, sz := 4 }))
      else none
    capacity := 100 }

/-! ## Text import parser (creator.js 432-487) -/

/-- The record `parseSingleQuestionFromText` produces. -/
structure ParsedQ where
  text : String
  type : String
  options : List String
  correct : Nat
  explanation : String
deriving DecidableEq, Repr

/-- JS whitespace as used by `trim` and `\s`, for the characters that can
occur in the parser's inputs. -/
def isJsSpace (c : Char) : Bool :=
  c == ' ' || c == '\t' || c == '\n' || c == '\r'

/-- `String.trim` re-implemented structurally (drop whitespace at both
ends), so that concrete runs reduce inside the kernel. -/
def jsTrim (s : String) : String :=
  String.mk (((s.toList.dropWhile isJsSpace).reverse.dropWhile isJsSpace).reverse)

/-- Splitting a character list at `\n`. -/
def splitNlAux (cur : List Char) : List Char → List (List Char)
  | [] => [cur.reverse]
  | c :: r => if c = '\n' then cur.reverse :: splitNlAux [] r
              else splitNlAux (c :: cur) r

/-- `text.split('\n')`, structurally. -/
def jsLines (s : String) : List String := (splitNlAux [] s.toList).map String.mk

/-- Character-list prefix test (structural `String.startsWith`). -/
def listStarts : List Char → List Char → Bool
  | _, [] => true
  | [], _ :: _ => false
  | a :: as, b :: bs => a == b && listStarts as bs

/-- `s.startsWith pfx`, structurally. -/
def strStarts (s pfx : String) : Bool := listStarts s.toList pfx.toList

/-- `s.toLowerCase()`, structurally (ASCII lowering, like Lean's `toLower`;
the non-ASCII letters of `explicação` are already lower case in the
keyword, so the tests below agree with JS on every line whose non-ASCII
letters are lower case). -/
def strLower (s : String) : String := String.mk (s.toList.map Char.toLower)

/-- `line.match(/^[A-Za-z]\)/)` — an ASCII letter followed by `)`. -/
def isOptionLine (l : String) : Bool :=
  match l.toList with
  | c1 :: c2 :: _ => c1.isAlpha && c2 == ')'
  | _ => false

/-- `line.toLowerCase().match(/^(answer|resposta):/)`. -/
def isAnswerLine (l : String) : Bool :=
  strStarts (strLower l) "answer:" || strStarts (strLower l) "resposta:"

/-- `line.toLowerCase().match(/^(explanation|explicação):/)`. -/
def isExplanationLine (l : String) : Bool :=
  strStarts (strLower l) "explanation:" || strStarts (strLower l) "explicação:"

/-- Characters after the first `:`. -/
def afterColonChars : List Char → List Char
  | [] => []
  | c :: r => if c = ':' then r else afterColonChars r

/-- `line.substring(line.indexOf(':') + 1)`: everything after the first
colon; when there is no colon, `indexOf` is `-1` and the whole line is
returned. -/
def jsSubstringAfterColon (l : String) : String :=
  if l.toList.contains ':' then String.mk (afterColonChars l.toList) else l

/-- The classification loop of `parseSingleQuestionFromText`
(creator.js:461-471), folded over the lines after the question text:
accumulates the option lines in order, the last answer line and the last
explanation text. -/
def classifyLine (acc : List String × String × String) (line : String) :
    List String × String × String :=
  if isOptionLine line then (acc.1 ++ [line], acc.2.1, acc.2.2)
  else if isAnswerLine line then (acc.1, line, acc.2.2)
  else if isExplanationLine line then (acc.1, acc.2.1, jsTrim (jsSubstringAfterColon line))
  else acc

/-- `parseSingleQuestionFromText(block)` (creator.js:452-487). -/
def parseSingleQuestionFromText (block : String) : Option ParsedQ :=
  let lines := ((jsLines block).map jsTrim).filter (fun l => l ≠ "")
  if lines.length < 3 then none
  else
    match lines with
    | [] => none
    | questionText :: rest =>
      let r := rest.foldl classifyLine ([], "", "")
      let options := r.1
      let answerLine := r.2.1
      let explanation := r.2.2
      if options.length < 2 ∨ answerLine = "" then none
      else
        let answerLetter := (answerLine.toList.find? Char.isAlpha).map Char.toUpper
        let correctIndex : Int :=
          match answerLetter with
          | some c => (c.toNat : Int) - 65
          | none => -1
        if correctIndex < 0 ∨ (options.length : Int) ≤ correctIndex then none
        else some { text := questionText, type := "multiple", options := options,
                    correct := correctIndex.toNat,
                    explanation := if explanation = "" then "Sem explicação fornecida."
                                   else explanation }

/-- Helper grouping lines into maximal runs separated by whitespace-only
lines. -/
def splitBlocksAux (cur : List String) : List String → List (List String)
  | [] => if cur.isEmpty then [] else [cur.reverse]
  | l :: rest =>
    if jsTrim l == "" then
      if cur.isEmpty then splitBlocksAux [] rest
      else cur.reverse :: splitBlocksAux [] rest
    else splitBlocksAux (l :: cur) rest

/-- Joining lines back with `\n`. -/
def joinLines : List String → String
  | [] => ""
  | [l] => l
  | l :: rest => l ++ "\n" ++ joinLines rest

/-- `text.split(/\n\s*\n/)` (creator.js:434), modelled as grouping the
lines of `text` at whitespace-only separator lines; parse-equivalent to the
regex split because `parseSingleQuestionFromText` trims every line and
drops the blank ones. -/
def splitBlocks (text : String) : List String :=
  (splitBlocksAux [] (jsLines text)).map joinLines

/-- `parseMultipleQuestionsFromText(text)` (creator.js:432-450): parse each
block, dropping the unparseable ones.  (The source then decorates each
parsed record with a generated id, `createdAt`, `difficulty: 'medium'` and
`category: 'Importada'` — metadata only, which no claim inspects.) -/
def parseMultipleQuestionsFromText (text : String) : List ParsedQ :=
  (splitBlocks text).filterMap parseSingleQuestionFromText

/-- The spec's example input for the text parser (§8). -/
def capitalText : String :=
  "Capital of Brazil?\nA) SP\nB) RJ\nC) Brasilia\nResposta: C\nExplicação: test"

/-! ## Service worker caching (sw.js 59-82, 145-165) -/

/-- An HTTP response: status and an opaque body. -/
structure Response where
  status : Nat
  body : String
deriving DecidableEq, Repr

/-- `Response.ok` — status in the 2xx range. -/
def respOk (r : Response) : Bool := 200 ≤ r.status && r.status ≤ 299

/-- The synthesized offline response (sw.js:160-163). -/
def offlineResponse : Response :=
  { status := 503, body := "Offline - Resource not available" }

/-- `networkFirst(request)` (sw.js:145-165), for one request:
`net` is the network outcome (`none` = `fetch` threw), `staticCached` /
`dynCached` the request's entry in the static and dynamic caches
(`caches.match` consults both, a fresh copy is stored in the dynamic one).
Returns the response handed to the client and the request's dynamic-cache
entry afterwards. -/
def networkFirst (net staticCached dynCached : Option Response) :
    Response × Option Response :=
  match net with
  | some r => if respOk r then (r, some r) else (r, dynCached)
  | none =>
    match staticCached.orElse (fun _ => dynCached) with
    | some c => (c, dynCached)
    | none => (offlineResponse, dynCached)

/-- `STATIC_CACHE_NAME` (sw.js:7). -/
def staticCacheName : String := "quiz-pro-static-v1.0.0"

/-- `DYNAMIC_CACHE_NAME` (sw.js:8). -/
def dynamicCacheName : String := "quiz-pro-dynamic-v1.0.0"

/-- The deletion test of the activate handler (sw.js:68-70): an old cache
is deleted when its name differs from both current generation names AND
starts with `quiz-pro-`. -/
def isOldQuizProCache (n : String) : Bool :=
  n != staticCacheName && n != dynamicCacheName && strStarts n "quiz-pro-"

/-- The cache names surviving the activate handler (sw.js:59-82). -/
def activateCleanup (names : List String) : List String :=
  names.filter (fun n => !(isOldQuizProCache n))

/-! ## Concrete fixtures used by the counterexamples and witnesses -/

/-- A reachable history of 51 entries: 50 recent zero-score runs in front of
one older perfect run (51 is exactly the stored length that repeated
`saveQuizResult` calls produce). -/
def hist51 : List HistEntry :=
  List.replicate 50 ({} : HistEntry)
    ++ [{ summary := { percentage := 100, totalQuestions := 7 } }]

/-- Store holding `hist51`. -/
def stats51Store : Store := { history := hist51 }

/-- A store with one existing collection. -/
def colStore : Store := { collections := [{ id := some "old", payload := 1 }] }

/-- A bundle carrying a different collection set. -/
def colBundle : BundleData :=
  { questions := some [], collections := some [{ id := some "new", payload := 2 }],
    history := some [] }

/-- A backup wrapping `colBundle`. -/
def colBackup : Backup := { data := some colBundle }

/-- A bundle whose question list repeats one id that is not yet stored. -/
def dupBundle : BundleData :=
  { questions := some [{ id := some "x", payload := 1 }, { id := some "x", payload := 2 }] }

/-- A one-question bundle for the idempotence witness. -/
def idemBundle : BundleData := { questions := some [{ id := some "a", payload := 3 }] }

set_option maxRecDepth 40000

/-! ## Helper lemmas -/

lemma find?_eq_none_of_findIdx?_eq_none {α : Type} (p : α → Bool) :
    ∀ l : List α, l.findIdx? p = none → l.find? p = none
  | [], _ => rfl
  | x :: xs, h => by
    rw [List.findIdx?_cons] at h
    by_cases hx : p x
    · simp [hx] at h
    · rw [List.find?_cons_of_neg _ hx]
      exact find?_eq_none_of_findIdx?_eq_none p xs (by simpa [hx] using h)

lemma saveCollection_id_none {c : Rec} (h : c.id = none) (s : Store) (now : Nat) :
    saveCollection s c now =
      ({ s with collections := s.collections ++ [{ c with id := some (genId s.gen), createdAt := some now }], gen := s.gen + 1 },
       genId s.gen) := by
  simp [saveCollection, h]

lemma saveCollection_id_found {s : Store} {c : Rec} {i : String} {k : Nat}
    (h : c.id = some i)
    (hk : s.collections.findIdx? (fun r => r.id == some i) = some k) (now : Nat) :
    saveCollection s c now =
      ({ s with collections := s.collections.set k { c with updatedAt := some now } }, i) := by
  simp [saveCollection, h, hk]

lemma saveCollection_id_missing {s : Store} {c : Rec} {i : String}
    (h : c.id = some i)
    (hk : s.collections.findIdx? (fun r => r.id == some i) = none) (now : Nat) :
    saveCollection s c now = (s, i) := by
  simp [saveCollection, h, hk]

/-! ## Claim theorems -/

/-- C1: the claim states that `saveQuizResult` keeps the stored history
capped at 100 with the oldest entry evicted after 101 appends.  The code
violates its own `Keep only last 100 results` comment: `saveQuizResult`
reads the current history through `getQuizHistory()` whose default limit 50
truncates first, so 101 successive appends leave 51 stored entries (the
prepend itself is most-recent-first, as the head timestamp shows). -/
theorem saveQuizResult_caps_at_51 :
    (appendN {} 101).history.length = 51 ∧
    (appendN {} 101).history.head?.map (fun e => e.timestamp) = some 100 := by
  constructor <;> decide

/-- C2: the claim states that `getQuizStatistics` aggregates over the full
stored history.  On a reachable store with 51 entries whose oldest run is a
perfect score, the code reports `totalQuizzes = 50` and `bestScore = 0`,
while the same aggregation over the full history gives 51 and 100: entries
beyond the 50 most recent do not contribute. -/
theorem getQuizStatistics_ignores_entries_beyond_50 :
    stats51Store.history.length = 51 ∧
    (getQuizStatistics stats51Store).totalQuizzes = 50 ∧
    (getQuizStatistics stats51Store).bestScore = 0 ∧
    (aggregateOverFullHistory stats51Store).totalQuizzes = 51 ∧
    (aggregateOverFullHistory stats51Store).bestScore = 100 := by
  refine ⟨?_, ?_, ?_, ?_, ?_⟩ <;> decide

/-- C6: the claim states that the spec's example block parses to one
question with `correct = 2`.  The code's `answerLine.match(/[A-Za-z]/)`
grabs the first letter of the whole answer line — the `R` of `Resposta` —
yielding index 17, which is out of range for the 3 options, so the block is
silently dropped and no question is produced. -/
theorem parseText_drops_resposta_block :
    parseSingleQuestionFromText capitalText = none ∧
    parseMultipleQuestionsFromText capitalText = [] ∧
    ("Resposta: C".toList.find? Char.isAlpha).map Char.toUpper = some 'R' := by
  refine ⟨?_, ?_, ?_⟩ <;> decide

/-- C7 counterexample: saving a collection whose id (`"z"`) matches no
stored entry does not append it — the collection list stays empty and the
subsequent lookup by the returned id misses, contrary to the claimed
`saveQuestion`-like contract. -/
theorem saveCollection_drops_unmatched_id :
    (saveCollection {} { id := some "z", payload := 1 } 0).1.collections = [] ∧
    (saveCollection {} { id := some "z", payload := 1 } 0).2 = "z" ∧
    getCollectionById (saveCollection {} { id := some "z", payload := 1 } 0).1 "z" = none := by
  refine ⟨?_, ?_, ?_⟩ <;> decide

/-- C7 amended: `saveCollection` follows the `saveQuestion` contract only
for the absent-id branch (fresh id, `createdAt`, append) and the matched-id
branch (replace in place with `updatedAt`); when the id is present but
matches no stored entry the collection list is left unchanged and a
subsequent `getCollectionById` with the returned id misses. -/
theorem saveCollection_contract (s : Store) (c : Rec) (now : Nat) :
    (c.id = none →
      (saveCollection s c now).1.collections
        = s.collections ++ [{ c with id := some (genId s.gen), createdAt := some now }] ∧
      (saveCollection s c now).2 = genId s.gen) ∧
    (∀ i, c.id = some i →
      (saveCollection s c now).2 = i ∧
      (∀ k, s.collections.findIdx? (fun r => r.id == some i) = some k →
        (saveCollection s c now).1.collections
          = s.collections.set k { c with updatedAt := some now }) ∧
      (s.collections.findIdx? (fun r => r.id == some i) = none →
        (saveCollection s c now).1.collections = s.collections ∧
        getCollectionById (saveCollection s c now).1 i = none)) := by
  constructor
  · intro hid
    rw [saveCollection_id_none hid]
    exact ⟨rfl, rfl⟩
  · intro i hid
    refine ⟨?_, fun k hk => ?_, fun hmiss => ?_⟩
    · cases hfi : s.collections.findIdx? (fun r => r.id == some i) with
      | none => rw [saveCollection_id_missing hid hfi]
      | some k => rw [saveCollection_id_found hid hfi]
    · rw [saveCollection_id_found hid hk]
    · rw [saveCollection_id_missing hid hmiss]
      exact ⟨rfl, find?_eq_none_of_findIdx?_eq_none _ _ hmiss⟩

/-- C7 witness: the amended theorem applied to the empty store and the
collection `{ id := "z" }`. -/
theorem saveCollection_contract_witness :
    getCollectionById (saveCollection {} { id := some "z", payload := 1 } 0).1 "z" = none := by
  have h := saveCollection_contract {} { id := some "z", payload := 1 } 0
  exact ((h.2 "z" rfl).2.2 rfl).2

/-- C8: `networkFirst` returns the network response whenever the fetch
resolves (caching a copy in the dynamic cache when it is 2xx); when the
fetch throws and any cached copy exists it is returned; the synthesized 503
appears only when the fetch throws and no cache holds a copy. -/
theorem networkFirst_contract (net staticCached dynCached : Option Response) :
    (∀ r, net = some r →
      (networkFirst net staticCached dynCached).1 = r ∧
      (respOk r = true → (networkFirst net staticCached dynCached).2 = some r)) ∧
    (net = none → ∀ c, staticCached.orElse (fun _ => dynCached) = some c →
      (networkFirst net staticCached dynCached).1 = c) ∧
    (net = none → staticCached = none → dynCached = none →
      (networkFirst net staticCached dynCached).1 = offlineResponse) := by
  refine ⟨?_, ?_, ?_⟩
  · rintro r rfl
    constructor
    · by_cases h : respOk r <;> simp [networkFirst, h]
    · intro hok
      simp [networkFirst, hok]
  · rintro rfl c hc
    simp [networkFirst, hc]
  · rintro rfl rfl rfl
    rfl

/-- C8 witness: network failure with a cached copy returns the cached copy,
not a 503. -/
theorem networkFirst_contract_witness :
    (networkFirst none none (some { status := 200, body := "cached" })).1
      = { status := 200, body := "cached" } :=
  (networkFirst_contract none none (some { status := 200, body := "cached" })).2.1
    rfl { status := 200, body := "cached" } rfl

/-- C9 counterexample: a cache named `other-cache` (no `quiz-pro-` prefix)
survives activation although it matches neither current generation name,
contradicting the claim that only the current static and dynamic
generations remain. -/
theorem activateCleanup_keeps_foreign_cache :
    activateCleanup ["other-cache"] = ["other-cache"] ∧
    "other-cache" ≠ staticCacheName ∧ "other-cache" ≠ dynamicCacheName := by
  refine ⟨?_, ?_, ?_⟩ <;> decide

/-- C9 amended: after activation a cache name survives iff it was present
and is the current static generation, the current dynamic generation, or
does not start with `quiz-pro-` — only stale `quiz-pro-` caches are
deleted. -/
theorem activateCleanup_semantics (names : List String) (n : String) :
    n ∈ activateCleanup names ↔
      n ∈ names ∧
        (n = staticCacheName ∨ n = dynamicCacheName ∨ strStarts n "quiz-pro-" = false) := by
  simp only [activateCleanup, List.mem_filter, isOldQuizProCache]
  apply and_congr_right
  intro _
  simp [bne]
  tauto

/-- C10: `restoreBackup` applied to a missing argument or to a backup
without a `data` field throws `'Dados de backup inválidos'` (it does not
return a `{success:false}` result); the throw precedes every write, so the
stored state is untouched. -/
theorem restoreBackup_invalid_throws (s : Store) (now : Nat) (b : Backup)
    (h : b.data = none) :
    restoreBackup s none now = Except.error "Dados de backup inválidos" ∧
    restoreBackup s (some b) now = Except.error "Dados de backup inválidos" := by
  refine ⟨rfl, ?_⟩
  simp [restoreBackup, h]

/-- C10 witness: the theorem at the empty store and a dataless backup. -/
theorem restoreBackup_invalid_throws_witness :
    restoreBackup {} none 0 = Except.error "Dados de backup inválidos" ∧
    restoreBackup {} (some { data := none }) 0 = Except.error "Dados de backup inválidos" :=
  restoreBackup_invalid_throws {} 0 { data := none } rfl

/-! ## Import section lemmas -/

lemma getQuizHistory_default (s : Store) : getQuizHistory s = s.history.take 50 := rfl

@[simp] lemma importQuestionsSection_store_collections (s : Store) (d : BundleData) (o : ImportOpts) (now : Nat) :
    (importQuestionsSection s d o now).1.collections = s.collections := by
  unfold importQuestionsSection
  cases d.questions with
  | none => rfl
  | some qs => by_cases h : o.mergeQuestions <;> simp [h]

@[simp] lemma importQuestionsSection_store_history (s : Store) (d : BundleData) (o : ImportOpts) (now : Nat) :
    (importQuestionsSection s d o now).1.history = s.history := by
  unfold importQuestionsSection
  cases d.questions with
  | none => rfl
  | some qs => by_cases h : o.mergeQuestions <;> simp [h]

@[simp] lemma importQuestionsSection_bundle_collections (s : Store) (d : BundleData) (o : ImportOpts) (now : Nat) :
    (importQuestionsSection s d o now).2.1.collections = d.collections := by
  unfold importQuestionsSection
  cases d.questions with
  | none => rfl
  | some qs => by_cases h : o.mergeQuestions <;> simp [h]

@[simp] lemma importQuestionsSection_bundle_history (s : Store) (d : BundleData) (o : ImportOpts) (now : Nat) :
    (importQuestionsSection s d o now).2.1.history = d.history := by
  unfold importQuestionsSection
  cases d.questions with
  | none => rfl
  | some qs => by_cases h : o.mergeQuestions <;> simp [h]

lemma importQuestionsSection_of_none (s : Store) (d : BundleData) (o : ImportOpts) (now : Nat)
    (h : d.questions = none) :
    importQuestionsSection s d o now = (s, d, 0) := by
  simp [importQuestionsSection, h]

@[simp] lemma importCollectionsSection_store_questions (s : Store) (d : BundleData) (o : ImportOpts) (now : Nat) :
    (importCollectionsSection s d o now).1.questions = s.questions := by
  unfold importCollectionsSection
  cases d.collections with
  | none => rfl
  | some cs => by_cases h : o.mergeCollections <;> simp [h]

@[simp] lemma importCollectionsSection_store_history (s : Store) (d : BundleData) (o : ImportOpts) (now : Nat) :
    (importCollectionsSection s d o now).1.history = s.history := by
  unfold importCollectionsSection
  cases d.collections with
  | none => rfl
  | some cs => by_cases h : o.mergeCollections <;> simp [h]

@[simp] lemma importCollectionsSection_bundle_questions (s : Store) (d : BundleData) (o : ImportOpts) (now : Nat) :
    (importCollectionsSection s d o now).2.questions = d.questions := by
  unfold importCollectionsSection
  cases d.collections with
  | none => rfl
  | some cs => by_cases h : o.mergeCollections <;> simp [h]

@[simp] lemma importCollectionsSection_bundle_history (s : Store) (d : BundleData) (o : ImportOpts) (now : Nat) :
    (importCollectionsSection s d o now).2.history = d.history := by
  unfold importCollectionsSection
  cases d.collections with
  | none => rfl
  | some cs => by_cases h : o.mergeCollections <;> simp [h]

@[simp] lemma importCollectionsSection_restoreOpts (s : Store) (d : BundleData) (now : Nat) :
    importCollectionsSection s d restoreOpts now = (s, d) := by
  unfold importCollectionsSection
  cases d.collections with
  | none => rfl
  | some cs => simp [restoreOpts]

@[simp] lemma importHistorySection_questions (s : Store) (d : BundleData) (o : ImportOpts) :
    (importHistorySection s d o).questions = s.questions := by
  unfold importHistorySection
  cases d.history with
  | none => rfl
  | some hs => by_cases h : o.mergeHistory <;> simp [h]

@[simp] lemma importHistorySection_collections (s : Store) (d : BundleData) (o : ImportOpts) :
    (importHistorySection s d o).collections = s.collections := by
  unfold importHistorySection
  cases d.history with
  | none => rfl
  | some hs => by_cases h : o.mergeHistory <;> simp [h]

@[simp] lemma importSettingsSection_questions (s : Store) (d : BundleData) (o : ImportOpts) :
    (importSettingsSection s d o).questions = s.questions := by
  unfold importSettingsSection
  cases d.settings with
  | none => rfl
  | some st => by_cases h : o.overwriteSettings <;> simp [h]

@[simp] lemma importSettingsSection_collections (s : Store) (d : BundleData) (o : ImportOpts) :
    (importSettingsSection s d o).collections = s.collections := by
  unfold importSettingsSection
  cases d.settings with
  | none => rfl
  | some st => by_cases h : o.overwriteSettings <;> simp [h]

@[simp] lemma importSettingsSection_history (s : Store) (d : BundleData) (o : ImportOpts) :
    (importSettingsSection s d o).history = s.history := by
  unfold importSettingsSection
  cases d.settings with
  | none => rfl
  | some st => by_cases h : o.overwriteSettings <;> simp [h]

@[simp] lemma logImport_questions (s : Store) (count now : Nat) :
    (logImport s count now).questions = s.questions := by
  simp [logImport]

@[simp] lemma logImport_collections (s : Store) (count now : Nat) :
    (logImport s count now).collections = s.collections := by
  simp [logImport]

@[simp] lemma logImport_history (s : Store) (count now : Nat) :
    (logImport s count now).history = s.history := by
  simp [logImport]

lemma stampAll_payloads : ∀ (qs : List Rec) (g now : Nat),
    ((stampAll g now qs).1.map (fun q => q.payload)) = qs.map (fun q => q.payload)
  | [], _, _ => rfl
  | q :: rest, g, now => by
    cases hid : q.id <;>
      simp [stampAll, hid, stampAll_payloads rest]

lemma importHistorySection_merge (s : Store) (d : BundleData) (o : ImportOpts)
    {hs : List HistEntry} (h : d.history = some hs) (hm : o.mergeHistory = true) :
    importHistorySection s d o =
      { s with history := (sortByTimestampDesc (dedupById (getQuizHistory s ++ hs))).take 100 } := by
  simp [importHistorySection, h, hm]

/-- C3 counterexample: restoring a backup over a store with one existing
collection, from a bundle carrying a different collection set, leaves the
stored collections exactly as they were — they are not replaced by the
bundle's set. -/
theorem restoreBackup_keeps_existing_collections :
    (restoreBackup colStore (some colBackup) 0).toOption.map (fun r => r.1.collections)
      = some [{ id := some "old", payload := 1 }] ∧
    colBundle.collections = some [{ id := some "new", payload := 2 }] ∧
    ({ id := some "old", payload := 1 } : Rec) ≠ { id := some "new", payload := 2 } := by
  refine ⟨?_, ?_, ?_⟩ <;> decide

/-- C3 amended: `restoreBackup` calls `importData` with
`mergeQuestions = false`, `mergeCollections = false`, `mergeHistory = true`,
`overwriteSettings = true`; the question set is replaced wholesale by the
bundle's questions (stamped, with ids generated where missing), the
collection set is left unchanged (with `mergeCollections = false` the
collections section of `importData` does nothing), and the history becomes
the id-deduplicated union of the 50 most recent stored entries with the
bundle history, sorted by timestamp descending and truncated to 100. -/
theorem restoreBackup_semantics (s : Store) (bk : Backup) (d : BundleData) (now : Nat)
    (hd : bk.data = some d) :
    restoreBackup s (some bk) now = Except.ok (importData s d restoreOpts now) ∧
    (importData s d restoreOpts now).1.collections = s.collections ∧
    (∀ qs, d.questions = some qs →
      (importData s d restoreOpts now).1.questions = (stampAll s.gen now qs).1 ∧
      (importData s d restoreOpts now).1.questions.map (fun q => q.payload)
        = qs.map (fun q => q.payload)) ∧
    (∀ hs, d.history = some hs →
      (importData s d restoreOpts now).1.history
        = (sortByTimestampDesc (dedupById (s.history.take 50 ++ hs))).take 100) := by
  refine ⟨by simp [restoreBackup, hd], ?_, ?_, ?_⟩
  · simp [importData]
  · intro qs hqs
    have hq : importQuestionsSection s d restoreOpts now =
        ({ s with questions := (stampAll s.gen now qs).1, gen := (stampAll s.gen now qs).2 },
         { d with questions := some (stampAll s.gen now qs).1 }, (stampAll s.gen now qs).1.length) := by
      simp [importQuestionsSection, hqs, restoreOpts]
    constructor
    · simp [importData, hq]
    · simp [importData, hq, stampAll_payloads]
  · intro hs hhs
    have hmh : (importQuestionsSection s d restoreOpts now).2.1.history = some hs := by
      simp [hhs]
    simp [importData,
      importHistorySection_merge _ _ _ hmh (show restoreOpts.mergeHistory = true from rfl),
      getQuizHistory_default]

/-- C3 witness: the amended theorem's collections conjunct at the concrete
store and backup of the counterexample scenario. -/
theorem restoreBackup_semantics_witness :
    (importData colStore colBundle restoreOpts 0).1.collections = colStore.collections :=
  (restoreBackup_semantics colStore colBackup colBundle 0 rfl).2.1

/-! ## Merge-pass lemmas for the import idempotence claim -/

@[simp] lemma mergeIn_nil (ex : List (Option String)) (g now : Nat) :
    mergeIn ex g now [] = ([], [], g) := rfl

lemma mergeIn_cons_present {ex : List (Option String)} {q0 : Rec} (h : q0.id ∈ ex)
    (g now : Nat) (rest : List Rec) :
    mergeIn ex g now (q0 :: rest) =
      (q0 :: (mergeIn ex g now rest).1, (mergeIn ex g now rest).2.1,
       (mergeIn ex g now rest).2.2) := by
  simp [mergeIn, h]

lemma mergeIn_cons_new_none {ex : List (Option String)} {q0 : Rec} (h : q0.id ∉ ex)
    (hid : q0.id = none) (g now : Nat) (rest : List Rec) :
    mergeIn ex g now (q0 :: rest) =
      ({ q0 with id := some (genId g), importedAt := some now } :: (mergeIn ex (g+1) now rest).1,
       { q0 with id := some (genId g), importedAt := some now } :: (mergeIn ex (g+1) now rest).2.1,
       (mergeIn ex (g+1) now rest).2.2) := by
  have h2 : (none : Option String) ∉ ex := hid ▸ h
  simp [mergeIn, hid, h2]

lemma mergeIn_cons_new_some {ex : List (Option String)} {q0 : Rec} {j : String}
    (h : q0.id ∉ ex) (hid : q0.id = some j) (g now : Nat) (rest : List Rec) :
    mergeIn ex g now (q0 :: rest) =
      ({ q0 with importedAt := some now } :: (mergeIn ex g now rest).1,
       { q0 with importedAt := some now } :: (mergeIn ex g now rest).2.1,
       (mergeIn ex g now rest).2.2) := by
  have h2 : (some j : Option String) ∉ ex := hid ▸ h
  simp [mergeIn, hid, h2]

lemma mergeIn_all_present {ex : List (Option String)} {now : Nat} :
    ∀ (qs : List Rec) (g : Nat), (∀ q ∈ qs, q.id ∈ ex) → mergeIn ex g now qs = (qs, [], g)
  | [], g, _ => rfl
  | q :: rest, g, h => by
    rw [mergeIn_cons_present (h q (by simp)) g now rest,
        mergeIn_all_present rest g (fun x hx => h x (by simp [hx]))]

lemma mergeIn_mutated_ids {ex : List (Option String)} {now : Nat} :
    ∀ (qs : List Rec) (g : Nat) (q : Rec), q ∈ (mergeIn ex g now qs).1 →
      q.id ∈ ex ∨ q.id ∈ (mergeIn ex g now qs).2.1.map (fun r => r.id)
  | [], _, q, hq => by simp at hq
  | q0 :: rest, g, q, hq => by
    by_cases hp : q0.id ∈ ex
    · rw [mergeIn_cons_present hp g now rest] at hq ⊢
      rcases List.mem_cons.mp hq with h | h
      · exact Or.inl (h ▸ hp)
      · exact mergeIn_mutated_ids rest g q h
    · cases hid : q0.id with
      | none =>
        rw [mergeIn_cons_new_none hp hid g now rest] at hq ⊢
        rcases List.mem_cons.mp hq with h | h
        · subst h; simp
        · rcases mergeIn_mutated_ids rest (g+1) q h with h1 | h1
          · exact Or.inl h1
          · right
            simp only [List.map_cons, List.mem_cons]
            exact Or.inr h1
      | some j =>
        rw [mergeIn_cons_new_some hp hid g now rest] at hq ⊢
        rcases List.mem_cons.mp hq with h | h
        · subst h
          right
          simp
        · rcases mergeIn_mutated_ids rest g q h with h1 | h1
          · exact Or.inl h1
          · right
            simp only [List.map_cons, List.mem_cons]
            exact Or.inr h1

lemma importQuestionsSection_merge (s : Store) {d : BundleData} {qs : List Rec}
    (hq : d.questions = some qs) {o : ImportOpts} (hm : o.mergeQuestions = true) (now : Nat) :
    importQuestionsSection s d o now =
      ({ s with questions := s.questions ++ (mergeIn (s.questions.map fun q => q.id) s.gen now qs).2.1, gen := (mergeIn (s.questions.map fun q => q.id) s.gen now qs).2.2 },
       { d with questions := some (mergeIn (s.questions.map fun q => q.id) s.gen now qs).1 },
       (mergeIn (s.questions.map fun q => q.id) s.gen now qs).2.1.length) := by
  simp [importQuestionsSection, hq, hm]

lemma importData_store_questions (s : Store) (d : BundleData) (o : ImportOpts) (now : Nat) :
    (importData s d o now).1.questions = (importQuestionsSection s d o now).1.questions := by
  simp [importData]

lemma importData_bundle_questions (s : Store) (d : BundleData) (o : ImportOpts) (now : Nat) :
    (importData s d o now).2.1.questions = (importQuestionsSection s d o now).2.1.questions := by
  simp [importData]

/-- C4 counterexample: importing a bundle whose question list repeats the
id `"x"` (not yet stored) adds both records: the stored question set then
carries a duplicate id, contradicting the claim that no duplicate ids ever
appear. -/
theorem importData_duplicate_ids_in_bundle :
    ((importData {} dupBundle {} 0).1.questions.map (fun q => q.id))
      = [some "x", some "x"] ∧
    ¬ ((importData {} dupBundle {} 0).1.questions.map (fun q => q.id)).Nodup := by
  constructor <;> decide

/-- C4 amended: importing the same bundle twice in succession with
`mergeQuestions = true` (the second time with the bundle as mutated in
place by the first import, as in the source) yields the same final
question set as importing it once — only records whose id is not already
present are added — but a bundle that itself repeats a not-yet-present id
introduces duplicate ids. -/
theorem importData_merge_idempotent (s : Store) (d : BundleData) (o : ImportOpts)
    (n1 n2 : Nat) (hm : o.mergeQuestions = true) :
    (importData (importData s d o n1).1 (importData s d o n1).2.1 o n2).1.questions
      = (importData s d o n1).1.questions := by
  set S1 := (importData s d o n1).1 with hS1
  set D1 := (importData s d o n1).2.1 with hD1
  rw [importData_store_questions S1 D1 o n2]
  cases hq : d.questions with
  | none =>
    have hD1q : D1.questions = none := by
      rw [hD1, importData_bundle_questions, importQuestionsSection_of_none s d o n1 hq]
      exact hq
    rw [importQuestionsSection_of_none S1 D1 o n2 hD1q]
  | some qs =>
    have hex : S1.questions
        = s.questions ++ (mergeIn (s.questions.map fun q => q.id) s.gen n1 qs).2.1 := by
      rw [hS1, importData_store_questions, importQuestionsSection_merge s hq hm n1]
    have hD1q : D1.questions
        = some (mergeIn (s.questions.map fun q => q.id) s.gen n1 qs).1 := by
      rw [hD1, importData_bundle_questions, importQuestionsSection_merge s hq hm n1]
    rw [importQuestionsSection_merge S1 hD1q hm n2]
    have hall : ∀ q ∈ (mergeIn (s.questions.map fun q => q.id) s.gen n1 qs).1,
        q.id ∈ S1.questions.map (fun q => q.id) := by
      intro q hqm
      rw [hex, List.map_append]
      rcases mergeIn_mutated_ids qs s.gen q hqm with h | h
      · exact List.mem_append_left _ h
      · exact List.mem_append_right _ h
    rw [mergeIn_all_present _ S1.gen hall]
    simp

/-- C4 witness: the amended idempotence theorem at the empty store and a
one-question bundle. -/
theorem importData_merge_idempotent_witness :
    (importData (importData {} idemBundle {} 0).1 (importData {} idemBundle {} 0).2.1 {} 1).1.questions
      = (importData {} idemBundle {} 0).1.questions :=
  importData_merge_idempotent {} idemBundle {} 0 1 rfl

/-! ## Quota-path lemmas -/

/-- `handleStorageFull` (and the `setItem` calls it makes) only ever write
the history and imports keys; every other key keeps its entry. -/
lemma quotaPreserve : ∀ fuel : Nat,
    (∀ (st : QuotaStore) (k2 : SKey) (v : SVal) (k : SKey), k ≠ k2 →
      k ≠ SKey.history → k ≠ SKey.imports →
      (setItemF fuel st k2 v).1.entries k = st.entries k) ∧
    (∀ (st : QuotaStore) (k : SKey), k ≠ SKey.history → k ≠ SKey.imports →
      (handleStorageFullF fuel st).entries k = st.entries k)
  | 0 => ⟨fun _ _ _ _ _ _ _ => rfl, fun _ _ _ _ => rfl⟩
  | fuel + 1 => by
    obtain ⟨ih1, ih2⟩ := quotaPreserve fuel
    constructor
    · intro st k2 v k hk2 hh hi
      rw [setItemF]
      split
      · simp [qSet, hk2]
      · exact ih2 st k hh hi
    · intro st k hh hi
      rw [handleStorageFullF]
      rw [ih1 _ SKey.imports (SVal.blob 0) k hi hh hi]
      by_cases h20 : 20 < (qGetHistory st).length
      · rw [if_pos h20, ih1 st SKey.history _ k hh hh hi]
      · rw [if_neg h20]

/-- C5 counterexample: on the concrete store `quotaExSt` the write of a
10-byte settings value fails for quota, the eviction of
`handleStorageFull` then frees enough space for the very same write to
fit — yet `setItem` returns `false` and the value is not stored: the
logical write is never retried. -/
theorem setItem_quota_no_retry_cex :
    ¬ totalSize (qSet quotaExSt SKey.settings (SVal.blob 10)) ≤ quotaExSt.capacity ∧
    (setItemF 5 quotaExSt SKey.settings (SVal.blob 10)).2 = false ∧
    (setItemF 5 quotaExSt SKey.settings (SVal.blob 10)).1.entries SKey.settings = none ∧
    totalSize (qSet (setItemF 5 quotaExSt SKey.settings (SVal.blob 10)).1 SKey.settings (SVal.blob 10))
      ≤ (setItemF 5 quotaExSt SKey.settings (SVal.blob 10)).1.capacity := by
  refine ⟨?_, ?_, ?_, ?_⟩ <;> decide

/-- C5 amended: on a quota-failed write, `setItem` runs the evictions of
`handleStorageFull` (oldest history beyond 20 of the 50 read entries, and
the import log) and surfaces `false` to the caller without retrying the
write; the failed key's entry is untouched (for keys other than the two
eviction targets), and no exception escapes (the model is a total
function). -/
theorem setItem_quota_eviction_without_retry (fuel : Nat) (st : QuotaStore) (k : SKey)
    (v : SVal) (hfail : ¬ totalSize (qSet st k v) ≤ st.capacity) :
    setItemF (fuel + 1) st k v = (handleStorageFullF fuel st, false) ∧
    (k ≠ SKey.history → k ≠ SKey.imports →
      (setItemF (fuel + 1) st k v).1.entries k = st.entries k) := by
  have h1 : setItemF (fuel + 1) st k v = (handleStorageFullF fuel st, false) := by
    rw [setItemF, if_neg hfail]
  refine ⟨h1, fun hh hi => ?_⟩
  rw [h1]
  exact (quotaPreserve fuel).2 st k hh hi

/-- C5 witness: the amended theorem at the counterexample store. -/
theorem setItem_quota_eviction_without_retry_witness :
    setItemF 5 quotaExSt SKey.settings (SVal.blob 10) = (handleStorageFullF 4 quotaExSt, false) :=
  (setItem_quota_eviction_without_retry 4 quotaExSt SKey.settings (SVal.blob 10) (by decide)).1

end QuizPro
